import Mathlib

/-!
Shallow embedding of the PDF overlay editor (`components/PdfEditor.tsx`) and
verification of its specification.

Numbers that the TypeScript code handles as IEEE doubles are embedded as
rationals (`ℚ`): every arithmetic operation the embedded code performs
(multiplication, division, subtraction, `Math.min`/`Math.max`) is exact on the
inputs the claims quantify over, so `ℚ` is a faithful model and "within
floating-point tolerance" becomes exact equality.
-/

namespace PdfEditor

/-- A page's size in PDF points (also the rendering-surface pixel size at
scale 1), as discovered by the rendering pipeline or read back from the
document writer (`page.getWidth()` / `page.getHeight()`). -/
structure PageSize where
  width : ℚ
  height : ℚ
deriving DecidableEq, Repr

/-- A normalized position: fractions of the owning page's width and height,
origin at the top-left corner. -/
structure NormPos where
  x : ℚ
  y : ℚ
deriving DecidableEq, Repr

/-- One text annotation, from the `OverlayItem` type of the source:
`id` (opaque string), `text`, normalized `x`/`y` from the top-left,
`fontSize` (px in the UI, pt at export), and a CSS `color` string. -/
structure OverlayItem where
  id : String
  text : String
  x : ℚ
  y : ℚ
  fontSize : ℚ
  color : String
deriving DecidableEq, Repr

/-- Source conversion `toSurface`: where an overlay is placed on the rendering surface
(source: `const left = o.x * size.width; const top = o.y * size.height;`
inside the per-page overlay rendering). -/
def toSurface (n : NormPos) (size : PageSize) : ℚ × ℚ :=
  (n.x * size.width, n.y * size.height)

/-- Source conversion `fromSurface`: the drag-stop conversion from surface pixels back to
normalized coordinates (source `onStop` handler:
`Math.min(1, Math.max(0, data.x / size.width))` and likewise for `y`). -/
def fromSurface (px : ℚ × ℚ) (size : PageSize) : ℚ × ℚ :=
  (min 1 (max 0 (px.1 / size.width)), min 1 (max 0 (px.2 / size.height)))

/-- The draw instruction `handleExport` issues to the document writer for one
overlay item: `page.drawText(o.text, \x7b x, y, size, font, color \x7d)`. -/
structure DrawTextOp where
  text : String
  x : ℚ
  y : ℚ
  size : ℚ
  color : ℚ × ℚ × ℚ
deriving DecidableEq, Repr

/-- The digit value of a decimal digit list, as `parseInt(_, 10)` computes it
on a string that `\d+` matched (such strings hold only decimal digits). -/
def digitsVal (ds : List Char) : ℕ :=
  ds.foldl (fun a c => 10 * a + (c.toNat - 48)) 0

/-- Consume one-or-more leading decimal digits (`\d+`), returning their
numeric value and the remaining characters; `none` if there is no digit.
Greedy matching is exact here because in the regex below every `\d+` is
followed by a character that is not a digit. -/
def takeDigits1 (cs : List Char) : Option (ℕ × List Char) :=
  let ds := cs.takeWhile Char.isDigit
  if ds.isEmpty then none else some (digitsVal ds, cs.drop ds.length)

/-- Consume `,` followed by `\s*` (whitespace, greedy; exact because the next
pattern element is `\d`, disjoint from whitespace). -/
def takeCommaWs (cs : List Char) : Option (List Char) :=
  match cs with
  | ',' :: rest => some (rest.dropWhile Char.isWhitespace)
  | _ => none

/-- Match the regex `rgba?\((\d+),\s*(\d+),\s*(\d+)` anchored at the start of
`cs`, returning the three captured numbers. The optional `a?` is
deterministic: `a` and `(` are distinct characters, so no backtracking case
is lost. -/
def matchRgbAt (cs : List Char) : Option (ℕ × ℕ × ℕ) :=
  match cs with
  | 'r' :: 'g' :: 'b' :: rest =>
    let rest := match rest with
      | 'a' :: r => r
      | r => r
    match rest with
    | '(' :: r1 =>
      match takeDigits1 r1 with
      | none => none
      | some (d1, r2) =>
        match takeCommaWs r2 with
        | none => none
        | some r3 =>
          match takeDigits1 r3 with
          | none => none
          | some (d2, r4) =>
            match takeCommaWs r4 with
            | none => none
            | some r5 =>
              match takeDigits1 r5 with
              | none => none
              | some (d3, _) => some (d1, d2, d3)
    | _ => none
  | _ => none

/-- Leftmost unanchored search with `matchRgbAt`, as `RegExp.exec` performs
for the pattern `/rgba?\((\d+),\s*(\d+),\s*(\d+)/`. -/
def rgbSearch : List Char → Option (ℕ × ℕ × ℕ)
  | [] => none
  | c :: cs =>
    match matchRgbAt (c :: cs) with
    | some t => some t
    | none => rgbSearch cs

/-- Clamping `Math.min(255, Math.max(0, n))` applied to a parsed capture group, then
scaled to `0..1` by `/ 255` — one component of `cssColorToRgb01`'s result.
The capture group `\d+` only matches digits, so `n` is a natural number. -/
def clamp255Scale (n : ℕ) : ℚ :=
  min 255 (max 0 (n : ℚ)) / 255

/-- Source function `cssColorToRgb01`. The platform pieces are explicit
parameters: `ctx2d = none` models `canvas.getContext('2d')` returning null,
and `ctx2d = some serialize` models a 2D context whose
`fillStyle = color; fillStyle` round-trip serializes the assigned color
string to `serialize color` (the browser-normalized form). The regex match
on the serialized string and the clamping arithmetic are from the source. -/
def cssColorToRgb01 (ctx2d : Option (String → String)) (color : String) :
    ℚ × ℚ × ℚ :=
  match ctx2d with
  | none => (0, 0, 0)
  | some serialize =>
    match rgbSearch (serialize color).data with
    | none => (0, 0, 0)
    | some (r, g, b) => (clamp255Scale r, clamp255Scale g, clamp255Scale b)

/-- The body of `handleExport`'s inner loop for one overlay item `o` on a
page of size `size`:
`xPdf = o.x * pageWidth`, `yTop = o.y * pageHeight`,
`yPdf = pageHeight - yTop - o.fontSize`, then
`page.drawText(o.text, \x7b x: xPdf, y: yPdf, size: o.fontSize, font,
color: rgb(...cssColorToRgb01(o.color)) \x7d)`. The source also computes
`textWidth = font.widthOfTextAtSize(o.text, o.fontSize)` but never uses it,
so it does not appear in the draw instruction. -/
def exportDrawOp (ctx2d : Option (String → String)) (o : OverlayItem)
    (size : PageSize) : DrawTextOp :=
  let xPdf := o.x * size.width
  let yTop := o.y * size.height
  let yPdf := size.height - yTop - o.fontSize
  { text := o.text, x := xPdf, y := yPdf, size := o.fontSize,
    color := cssColorToRgb01 ctx2d o.color }

/-- Modelled from the spec, for refinement comparison only:
`toPdfPoint(norm, size, fontSizePt) = (norm.x*size.width,
size.height - norm.y*size.height - fontSizePt)`. -/
def spec_toPdfPoint (norm : NormPos) (size : PageSize) (fontSizePt : ℚ) :
    ℚ × ℚ :=
  (norm.x * size.width, size.height - norm.y * size.height - fontSizePt)

/-- The overlay collection: `type PageOverlays = Record<number, OverlayItem[]>`.
The source always reads a page's sequence as `prev[pageIndex] || []`, so an
absent entry and an empty sequence are observationally the same list; the
record is embedded as the total lookup function that this idiom denotes. -/
def PageOverlays := ℕ → List OverlayItem

/-- Read a page's overlay sequence (`overlays[i] || []`). -/
def PageOverlays.get (ov : PageOverlays) (i : ℕ) : List OverlayItem := ov i

/-- Write a page's overlay sequence (`\x7b ...prev, [pageIndex]: l \x7d`). -/
def PageOverlays.set (ov : PageOverlays) (i : ℕ) (l : List OverlayItem) :
    PageOverlays :=
  fun j => if j = i then l else ov j

/-- The empty overlay collection (`\x7b\x7d`). -/
def emptyOverlays : PageOverlays := fun _ => []

/-- JavaScript `Math.round`: round to the nearest integer, half toward positive
infinity. -/
def jsRound (q : ℚ) : ℤ := ⌊q + 1/2⌋

/-- Source function `addTextOverlay(pageIndex)`: append a fresh item with
`text = "New Text"`, `x = y = 0.5`,
`fontSize = Math.max(12, Math.min(24, size ? Math.round(size.width * 0.02)
: 16))` and `color = '#111827'` to the page's sequence. `newId` stands for
the `crypto.randomUUID()` result; `size` is `pageSizes[pageIndex]`, absent
when the index is out of range. -/
def addTextOverlay (ov : PageOverlays) (pageIndex : ℕ) (newId : String)
    (size : Option PageSize) : PageOverlays :=
  let newOverlay : OverlayItem :=
    { id := newId, text := "New Text", x := 1/2, y := 1/2,
      fontSize := max 12 (min 24 (match size with
        | some s => ((jsRound (s.width * (2/100)) : ℤ) : ℚ)
        | none => 16)),
      color := "#111827" }
  ov.set pageIndex (ov.get pageIndex ++ [newOverlay])

/-- A `Partial<OverlayItem>` update payload. The component's call sites pass
subsets of `text`, `x`, `y`, `fontSize`, `color`; no call site ever places
`id` in a payload (the spec fixes `id` as stable for the item's lifetime),
so `id` is omitted here. An absent field leaves the item's field unchanged
under JavaScript spread merge. -/
structure OverlayPatch where
  text : Option String := none
  x : Option ℚ := none
  y : Option ℚ := none
  fontSize : Option ℚ := none
  color : Option String := none
deriving DecidableEq, Repr

/-- Shallow merge `\x7b ...o, ...patch \x7d`: fields present in the payload
overwrite, the rest keep the item's values. -/
def OverlayPatch.merge (p : OverlayPatch) (o : OverlayItem) : OverlayItem :=
  { id := o.id, text := p.text.getD o.text, x := p.x.getD o.x,
    y := p.y.getD o.y, fontSize := p.fontSize.getD o.fontSize,
    color := p.color.getD o.color }

/-- Source function `updateOverlay(pageIndex, id, partialFields)`: map over
the page's sequence, merging the payload into each item whose `id` matches
(a no-op when no item matches). -/
def updateOverlay (ov : PageOverlays) (pageIndex : ℕ) (id : String)
    (p : OverlayPatch) : PageOverlays :=
  ov.set pageIndex
    ((ov.get pageIndex).map fun o => if o.id = id then p.merge o else o)

/-- Source function `removeOverlay(pageIndex, id)`: filter the item out of
the page's sequence (a no-op when absent). -/
def removeOverlay (ov : PageOverlays) (pageIndex : ℕ) (id : String) :
    PageOverlays :=
  ov.set pageIndex ((ov.get pageIndex).filter fun o => o.id ≠ id)

/-- A finite sequence of `updateOverlay` calls, all addressed to the same
page and id, applied left to right. -/
def applyUpdates (ov : PageOverlays) (pageIndex : ℕ) (id : String)
    (updates : List OverlayPatch) : PageOverlays :=
  updates.foldl (fun acc p => updateOverlay acc pageIndex id p) ov

/-- The drag-stop handler from the source (`onStop` of the `Draggable`):
`newX = Math.min(1, Math.max(0, data.x / size.width))`, likewise `newY`,
then `updateOverlay(pageIndex, o.id, \x7b x: newX, y: newY \x7d)`. -/
def onStop (ov : PageOverlays) (pageIndex : ℕ) (id : String)
    (dataX dataY : ℚ) (size : PageSize) : PageOverlays :=
  let newX := min 1 (max 0 (dataX / size.width))
  let newY := min 1 (max 0 (dataY / size.height))
  updateOverlay ov pageIndex id { x := some newX, y := some newY }

/-- An overlay item's normalized position lies in the unit square. -/
def inUnitSquare (o : OverlayItem) : Prop :=
  0 ≤ o.x ∧ o.x ≤ 1 ∧ 0 ≤ o.y ∧ o.y ≤ 1

/-- Modelled from the HTML standard for the platform range control: the
fontSize slider is `<input type="range" min=\x7b8\x7d max=\x7b72\x7d
step=\x7b1\x7d>`, and a range input's value is always clamped into
`[min, max]`, so the value string the control delivers to `onChange` parses
(`parseInt(e.target.value, 10)`) to the requested value clamped into
`[lo, hi]`. -/
def rangeControlValue (lo hi v : ℤ) : ℤ := max lo (min hi v)

/-- The fontSize slider's `onChange` handler composed with the range
control: `updateOverlay(pageIndex, o.id, \x7b fontSize:
parseInt(e.target.value, 10) \x7d)` where the control (min 8, max 72,
step 1) delivers the requested value `v` clamped into `[8, 72]`. -/
def fontSizeSliderOnChange (ov : PageOverlays) (pageIndex : ℕ) (id : String)
    (v : ℤ) : PageOverlays :=
  updateOverlay ov pageIndex id
    { fontSize := some ((rangeControlValue 8 72 v : ℤ) : ℚ) }

/-- Environment of the `loadAndRender` effect. `loadResult` models lines
146–161 of the component: `getDocument(...).promise` followed by the
per-page `getPage`/`getViewport` size-discovery loop; success yields the
page sizes (one entry per page, `numPages = sizes.length`), failure models
a rejection anywhere in that prefix. `canvasFor i` tells whether page `i`'s
canvas and 2D context are available (the loop `continue`s past a page
without them). `renderPageResult i` is the outcome of
`page.render(...).promise` for page `i`. Pages are 0-based here (the
source's loop counter `i` runs 1-based over the same pages). -/
structure RenderEnv where
  loadResult : Except Unit (List PageSize)
  canvasFor : ℕ → Bool
  renderPageResult : ℕ → Except Unit Unit

/-- State published by `loadAndRender`: the loaded document's page sizes (if
opening succeeded), the indices of pages whose render completed, and the
user-visible alert, if any. -/
structure RenderOutcome where
  doc : Option (List PageSize)
  renderedPages : List ℕ
  alert : Option String
deriving DecidableEq, Repr

/-- The source's sequential render loop (lines 164–174): pages without a
canvas or context are skipped; each other page awaits
`page.render(...).promise`, and a rejection escapes the loop to the
surrounding `try`/`catch` — no later page is rendered. Returns the rendered
page indices and whether a render rejected. -/
def renderPages (canvasFor : ℕ → Bool)
    (renderPageResult : ℕ → Except Unit Unit) : List ℕ → List ℕ × Bool
  | [] => ([], false)
  | i :: rest =>
    if canvasFor i then
      match renderPageResult i with
      | .error _ => ([], true)
      | .ok _ =>
        let r := renderPages canvasFor renderPageResult rest
        (i :: r.1, r.2)
    else renderPages canvasFor renderPageResult rest

/-- Source effect `loadAndRender`: open the document and discover sizes
(publishing `pdfDoc`, `numPages`, `pageSizes`), then run the render loop;
any rejection reaches the single `catch`, which alerts
`'Failed to render PDF'`. On an open/size-discovery failure nothing is
published. -/
def loadAndRender (env : RenderEnv) : RenderOutcome :=
  match env.loadResult with
  | .error _ => { doc := none, renderedPages := [],
                  alert := some "Failed to render PDF" }
  | .ok sizes =>
    let r := renderPages env.canvasFor env.renderPageResult
      (List.range sizes.length)
    { doc := some sizes, renderedPages := r.1,
      alert := if r.2 then some "Failed to render PDF" else none }

/-- The restore-overlays effect (the `React.useEffect` on `[pdfUrl]`):
`localStorage.getItem` may throw (`readResult = .error`), return null
(`.ok none`) or return a string (`.ok (some raw)`); `JSON.parse raw` may
throw (`parse raw = .error`) or produce a collection. The whole body is in
`try`/`catch`; the `catch` only logs and sets `\x7b\x7d`. Returns the new
overlay collection together with the user-visible error, if any. -/
def restoreOverlays (pdfUrl : Option String) (current : PageOverlays)
    (readResult : Except Unit (Option String))
    (parse : String → Except Unit PageOverlays) :
    PageOverlays × Option String :=
  match pdfUrl with
  | none => (current, none)
  | some _ =>
    match readResult with
    | .error _ => (emptyOverlays, none)
    | .ok none => (emptyOverlays, none)
    | .ok (some raw) =>
      match parse raw with
      | .error _ => (emptyOverlays, none)
      | .ok parsed => (parsed, none)

/-- The component state relevant to loading and export: the current URL, the
rendering byte buffer (`pdfArrayBuffer`), the export byte buffer
(`exportArrayBuffer`), and the overlay collection. Buffers are byte
lists. -/
structure EditorState where
  pdfUrl : Option String
  pdfArrayBuffer : Option (List ℕ)
  exportArrayBuffer : Option (List ℕ)
  overlays : PageOverlays

/-- The component's initial state: all `useState` initializers are `null` or
`\x7b\x7d`. -/
def initialState : EditorState :=
  { pdfUrl := none, pdfArrayBuffer := none, exportArrayBuffer := none,
    overlays := emptyOverlays }

/-- The successful tail of `handleFileSelect` (lines 69–76): after the
upload responds with a URL and its bytes are fetched, the source stores the
URL and two independent slices of the bytes — `pdfArrayBuffer` for
rendering and `exportArrayBuffer` for export (equal contents, distinct
buffers). -/
def handleFileSelectSuccess (st : EditorState) (url : String) (ab : List ℕ) :
    EditorState :=
  { st with pdfUrl := some url, pdfArrayBuffer := some ab,
            exportArrayBuffer := some ab }

/-- The load-from-URL effect (lines 96–110): when `?file=` holds a URL
different from the current one, set `pdfUrl`, fetch the bytes and set only
`pdfArrayBuffer` (on a fetch failure `pdfUrl` is already set and an alert
is raised; the buffers are untouched). `exportArrayBuffer` is not assigned
on any path of this effect. -/
def loadFromUrlEffect (st : EditorState) (paramUrl : Option String)
    (fetchResult : Except Unit (List ℕ)) : EditorState :=
  match paramUrl with
  | none => st
  | some u =>
    if st.pdfUrl = some u then st
    else
      match fetchResult with
      | .error _ => { st with pdfUrl := some u }
      | .ok ab => { st with pdfUrl := some u, pdfArrayBuffer := some ab }

/-- Environment of `handleExport`, the document-writer collaborator's
behaviour on this run: `ctx2d` as in `cssColorToRgb01`;
`loadResult` models `PDFDocument.load` (success yields the writer pages'
sizes); `embedFontResult` models `embedFont(StandardFonts.Helvetica)`;
`drawTextResult` the outcome of each issued `drawText`; `saveResult` the
bytes `save()` serializes given the issued draw instructions. -/
structure ExportEnv where
  ctx2d : Option (String → String)
  loadResult : Except Unit (List PageSize)
  embedFontResult : Except Unit Unit
  drawTextResult : DrawTextOp → Except Unit Unit
  saveResult : List DrawTextOp → Except Unit (List ℕ)

/-- Result of an export run: the triggered download (file name and bytes),
if any, and the user-visible alert, if any. -/
structure ExportOutcome where
  download : Option (String × List ℕ)
  alert : Option String
deriving DecidableEq, Repr

/-- The draw instructions `handleExport` issues: for each writer page `i`
(in order), for each item of `overlays[i] || []` (in stored order), the
instruction built by `exportDrawOp`. -/
def drawOps (ctx2d : Option (String → String)) (overlays : PageOverlays)
    (pageSizes : List PageSize) : List DrawTextOp :=
  pageSizes.enum.flatMap fun p =>
    (overlays.get p.1).map fun o => exportDrawOp ctx2d o p.2

/-- Issue the draw instructions in order; the first rejection escapes to the
`catch` and later instructions are not issued. -/
def runDraws (drawTextResult : DrawTextOp → Except Unit Unit) :
    List DrawTextOp → Except Unit Unit
  | [] => .ok ()
  | op :: rest =>
    match drawTextResult op with
    | .error e => .error e
    | .ok _ => runDraws drawTextResult rest

/-- Source function `handleExport`. With no export buffer it returns at once
(no download, no alert). Otherwise the body runs under one `try`/`catch`:
load the writer from a slice of the pristine bytes, embed Helvetica, issue
every draw instruction, `save()`, and only then build the blob and click
the `annotated.pdf` anchor; any rejection reaches the single `catch`,
which alerts `'Failed to export PDF'` and triggers no download. -/
def handleExport (st : EditorState) (env : ExportEnv) : ExportOutcome :=
  match st.exportArrayBuffer with
  | none => { download := none, alert := none }
  | some _ =>
    match env.loadResult with
    | .error _ => { download := none, alert := some "Failed to export PDF" }
    | .ok pageSizes =>
      match env.embedFontResult with
      | .error _ => { download := none, alert := some "Failed to export PDF" }
      | .ok _ =>
        let ops := drawOps env.ctx2d st.overlays pageSizes
        match runDraws env.drawTextResult ops with
        | .error _ =>
          { download := none, alert := some "Failed to export PDF" }
        | .ok _ =>
          match env.saveResult ops with
          | .error _ =>
            { download := none, alert := some "Failed to export PDF" }
          | .ok bytes =>
            { download := some ("annotated.pdf", bytes), alert := none }

/-- Whether some step of this export run fails: writer load, font embedding,
any issued draw, or serialization (the draw and save steps are reached with
the instruction list the run actually builds). -/
def exportStepFails (st : EditorState) (env : ExportEnv) : Bool :=
  match env.loadResult with
  | .error _ => true
  | .ok pageSizes =>
    match env.embedFontResult with
    | .error _ => true
    | .ok _ =>
      let ops := drawOps env.ctx2d st.overlays pageSizes
      match runDraws env.drawTextResult ops with
      | .error _ => true
      | .ok _ =>
        match env.saveResult ops with
        | .error _ => true
        | .ok _ => false

/-- C1. For every overlay item with normalized position in `[0,1]²`, positive
font size, and positive page dimensions, the export engine draws the item's
text at the PDF-space position `(x*width, height - y*height - fontSize)`;
in particular on a 595×842 page an overlay at `(0.5, 0.5)` with font size 16
is drawn at `(297.5, 405)`. -/
theorem export_draw_position (ctx2d : Option (String → String))
    (o : OverlayItem) (size : PageSize)
    (hx0 : 0 ≤ o.x) (hx1 : o.x ≤ 1) (hy0 : 0 ≤ o.y) (hy1 : o.y ≤ 1)
    (hf : 0 < o.fontSize) (hw : 0 < size.width) (hh : 0 < size.height) :
    ((exportDrawOp ctx2d o size).x, (exportDrawOp ctx2d o size).y)
      = spec_toPdfPoint ⟨o.x, o.y⟩ size o.fontSize
    ∧ ((exportDrawOp ctx2d
          { id := "a", text := "t", x := 1/2, y := 1/2, fontSize := 16,
            color := "#111827" }
          { width := 595, height := 842 }).x,
       (exportDrawOp ctx2d
          { id := "a", text := "t", x := 1/2, y := 1/2, fontSize := 16,
            color := "#111827" }
          { width := 595, height := 842 }).y) = ((595 : ℚ)/2, (405 : ℚ)) := by
  constructor
  · simp [exportDrawOp, spec_toPdfPoint]
  · simp only [exportDrawOp, Prod.mk.injEq]
    norm_num

/-- Witness for `export_draw_position` at a concrete overlay and page. -/
theorem export_draw_position_witness :
    ((exportDrawOp none
        { id := "a", text := "t", x := 1/2, y := 1/2, fontSize := 16,
          color := "#111827" }
        { width := 595, height := 842 }).x,
     (exportDrawOp none
        { id := "a", text := "t", x := 1/2, y := 1/2, fontSize := 16,
          color := "#111827" }
        { width := 595, height := 842 }).y) = ((595 : ℚ)/2, (405 : ℚ)) :=
  (export_draw_position none
    { id := "a", text := "t", x := 1/2, y := 1/2, fontSize := 16,
      color := "#111827" }
    { width := 595, height := 842 }
    (by norm_num) (by norm_num) (by norm_num) (by norm_num)
    (by norm_num) (by norm_num) (by norm_num)).2

/-- C2. For every normalized position in `[0,1]²` and positive page size,
converting to surface pixels and back through the drag-stop conversion is
the identity (exactly, in the rational model). -/
theorem fromSurface_toSurface_roundtrip (n : NormPos) (size : PageSize)
    (hx0 : 0 ≤ n.x) (hx1 : n.x ≤ 1) (hy0 : 0 ≤ n.y) (hy1 : n.y ≤ 1)
    (hw : 0 < size.width) (hh : 0 < size.height) :
    fromSurface (toSurface n size) size = (n.x, n.y) := by
  unfold fromSurface toSurface
  have hwx : n.x * size.width / size.width = n.x :=
    mul_div_cancel_right₀ n.x (ne_of_gt hw)
  have hhy : n.y * size.height / size.height = n.y :=
    mul_div_cancel_right₀ n.y (ne_of_gt hh)
  simp only [hwx, hhy]
  rw [max_eq_right hx0, max_eq_right hy0, min_eq_right hx1, min_eq_right hy1]

/-- Witness for `fromSurface_toSurface_roundtrip` at a concrete position and
page size. -/
theorem fromSurface_toSurface_roundtrip_witness :
    fromSurface (toSurface ⟨1/3, 2/5⟩ ⟨595, 842⟩) ⟨595, 842⟩
      = ((1/3 : ℚ), (2/5 : ℚ)) :=
  fromSurface_toSurface_roundtrip ⟨1/3, 2/5⟩ ⟨595, 842⟩
    (by norm_num) (by norm_num) (by norm_num) (by norm_num)
    (by norm_num) (by norm_num)

/-- A concrete three-page rendering run in which page 2 (index 1) is the
only page whose render rejects: all canvases are available and the other
pages render fine. -/
def cexRenderEnv : RenderEnv :=
  { loadResult := .ok [⟨595, 842⟩, ⟨595, 842⟩, ⟨595, 842⟩],
    canvasFor := fun _ => true,
    renderPageResult := fun i => if i = 1 then .error () else .ok () }

/-- A concrete editor state holding an export buffer (as left by a
successful upload). -/
def exportReadyState : EditorState :=
  handleFileSelectSuccess initialState "/u/doc.pdf" [37, 80, 68, 70]

/-- A concrete export environment whose writer-load step fails (corrupt
source bytes); the later collaborator steps would succeed. -/
def exportLoadFailEnv : ExportEnv :=
  { ctx2d := none, loadResult := .error (), embedFontResult := .ok (),
    drawTextResult := fun _ => .ok (), saveResult := fun _ => .ok [] }

/-- Reading back the page just written returns exactly the written list. -/
theorem PageOverlays.get_set_self (ov : PageOverlays) (i : ℕ)
    (l : List OverlayItem) : (ov.set i l).get i = l := by
  simp [PageOverlays.get, PageOverlays.set]

/-- Shallow merge never changes an item's `id` (no call site puts `id` in a
payload). -/
theorem OverlayPatch.merge_id (p : OverlayPatch) (o : OverlayItem) :
    (p.merge o).id = o.id := rfl

/-- C3. For every surface pixel position — negative or beyond the page
included — and positive page dimensions, the drag-stop conversion lands in
`[0,1]²`; hence after the drag-stop update the repositioned item lies in
the unit square, and a page whose items all lay in the unit square still
has this property. -/
theorem fromSurface_mem_unit_square (px : ℚ × ℚ) (size : PageSize)
    (hw : 0 < size.width) (hh : 0 < size.height) :
    (0 ≤ (fromSurface px size).1 ∧ (fromSurface px size).1 ≤ 1
      ∧ 0 ≤ (fromSurface px size).2 ∧ (fromSurface px size).2 ≤ 1)
    ∧ ∀ (ov : PageOverlays) (pageIndex : ℕ) (id : String),
        ∀ o ∈ (onStop ov pageIndex id px.1 px.2 size).get pageIndex,
          (o.id = id → inUnitSquare o)
          ∧ ((∀ o2 ∈ ov.get pageIndex, inUnitSquare o2) → inUnitSquare o) := by
  have hx0 : (0 : ℚ) ≤ min 1 (max 0 (px.1 / size.width)) :=
    le_min (by norm_num) (le_max_left 0 _)
  have hx1 : min 1 (max 0 (px.1 / size.width)) ≤ 1 := min_le_left _ _
  have hy0 : (0 : ℚ) ≤ min 1 (max 0 (px.2 / size.height)) :=
    le_min (by norm_num) (le_max_left 0 _)
  have hy1 : min 1 (max 0 (px.2 / size.height)) ≤ 1 := min_le_left _ _
  refine ⟨⟨hx0, hx1, hy0, hy1⟩, ?_⟩
  intro ov pageIndex id o ho
  simp only [onStop, updateOverlay, PageOverlays.get_set_self,
    List.mem_map] at ho
  obtain ⟨a, ha, rfl⟩ := ho
  by_cases h : a.id = id
  · simp only [h, if_pos rfl, if_true]
    constructor
    · intro _
      exact ⟨hx0, hx1, hy0, hy1⟩
    · intro _
      exact ⟨hx0, hx1, hy0, hy1⟩
  · simp only [if_neg h]
    exact ⟨fun hc => absurd hc h, fun hall => hall a ha⟩

/-- Witness for `fromSurface_mem_unit_square` at a concrete off-page drag
position. -/
theorem fromSurface_mem_unit_square_witness :
    0 ≤ (fromSurface (-50, 2000) ⟨595, 842⟩).1
    ∧ (fromSurface (-50, 2000) ⟨595, 842⟩).1 ≤ 1
    ∧ 0 ≤ (fromSurface (-50, 2000) ⟨595, 842⟩).2
    ∧ (fromSurface (-50, 2000) ⟨595, 842⟩).2 ≤ 1 :=
  (fromSurface_mem_unit_square (-50, 2000) ⟨595, 842⟩
    (by norm_num) (by norm_num)).1

/-- Filtering away an id commutes with a by-id update: updated items carry
the same id they matched on, so the update is invisible to the filter. -/
theorem filter_map_update (l : List OverlayItem) (id : String)
    (p : OverlayPatch) :
    ((l.map fun o => if o.id = id then p.merge o else o).filter
        fun o => o.id ≠ id)
      = l.filter fun o => o.id ≠ id := by
  induction l with
  | nil => rfl
  | cons a l ih =>
    by_cases h : a.id = id
    · have hm : (p.merge a).id = id := by rw [OverlayPatch.merge_id]; exact h
      simp only [List.map_cons, if_pos h, List.filter_cons, hm, h, ih]
      simp [hm]
    · simp only [List.map_cons, if_neg h, List.filter_cons, ih]

/-- Unfolding one update from a sequence of by-id updates. -/
theorem applyUpdates_cons (ov : PageOverlays) (pageIndex : ℕ) (id : String)
    (p : OverlayPatch) (updates : List OverlayPatch) :
    applyUpdates ov pageIndex id (p :: updates)
      = applyUpdates (updateOverlay ov pageIndex id p) pageIndex id updates :=
  rfl

/-- Any sequence of by-id updates is invisible to the items whose id
differs: filtering the page by `id ≠` yields the same list before and
after. -/
theorem applyUpdates_filter (updates : List OverlayPatch)
    (ov : PageOverlays) (pageIndex : ℕ) (id : String) :
    (((applyUpdates ov pageIndex id updates).get pageIndex).filter
        fun o => o.id ≠ id)
      = (ov.get pageIndex).filter fun o => o.id ≠ id := by
  induction updates generalizing ov with
  | nil => rfl
  | cons p updates ih =>
    rw [applyUpdates_cons, ih, updateOverlay, PageOverlays.get_set_self,
      filter_map_update]

/-- C4. Adding a fresh item to a page, applying any finite sequence of
updates addressed to its id, and then removing that id restores the page's
overlay sequence exactly, provided the fresh id does not already occur on
the page (the source draws it from `crypto.randomUUID()`). -/
theorem add_update_remove_roundtrip (ov : PageOverlays) (pageIndex : ℕ)
    (newId : String) (size : Option PageSize) (updates : List OverlayPatch)
    (hfresh : ∀ o ∈ ov.get pageIndex, o.id ≠ newId) :
    (removeOverlay
        (applyUpdates (addTextOverlay ov pageIndex newId size)
          pageIndex newId updates)
        pageIndex newId).get pageIndex
      = ov.get pageIndex := by
  rw [removeOverlay, PageOverlays.get_set_self, applyUpdates_filter]
  simp only [addTextOverlay, PageOverlays.get_set_self, List.filter_append]
  rw [List.filter_eq_self.mpr (fun a ha => by
    simpa using hfresh a ha)]
  simp

/-- Witness for `add_update_remove_roundtrip` on a one-item page, two
updates in between. -/
theorem add_update_remove_roundtrip_witness :
    (removeOverlay
        (applyUpdates
          (addTextOverlay
            (emptyOverlays.set 0 [⟨"old", "hello", 0, 0, 12, "#000"⟩])
            0 "new" none)
          0 "new" [{ text := some "edited" }, { fontSize := some 30 }])
        0 "new").get 0
      = (emptyOverlays.set 0 [⟨"old", "hello", 0, 0, 12, "#000"⟩]).get 0 :=
  add_update_remove_roundtrip
    (emptyOverlays.set 0 [⟨"old", "hello", 0, 0, 12, "#000"⟩])
    0 "new" none [{ text := some "edited" }, { fontSize := some 30 }]
    (by decide)

/-- C6. Whatever value is requested of the fontSize slider, the edited
item's stored `fontSize` ends up in `[8, 72]`: the configured range control
(min 8, max 72) clamps the value before the handler stores it. -/
theorem fontSize_edit_clamped (ov : PageOverlays) (pageIndex : ℕ)
    (id : String) (v : ℤ) :
    ∀ o ∈ (fontSizeSliderOnChange ov pageIndex id v).get pageIndex,
      o.id = id → 8 ≤ o.fontSize ∧ o.fontSize ≤ 72 := by
  intro o ho hid
  simp only [fontSizeSliderOnChange, updateOverlay, PageOverlays.get_set_self,
    List.mem_map] at ho
  obtain ⟨a, ha, rfl⟩ := ho
  by_cases h : a.id = id
  · simp only [h, if_pos rfl, if_true]
    constructor
    · show (8 : ℚ) ≤ ((rangeControlValue 8 72 v : ℤ) : ℚ)
      have : (8 : ℤ) ≤ rangeControlValue 8 72 v := le_max_left _ _
      exact_mod_cast this
    · show ((rangeControlValue 8 72 v : ℤ) : ℚ) ≤ 72
      have : rangeControlValue 8 72 v ≤ 72 :=
        max_le (by norm_num) (min_le_left _ _)
      exact_mod_cast this
  · rw [if_neg h] at hid ⊢
    exact absurd hid h

/-- Witness for `fontSize_edit_clamped`: requesting 1000 stores 72. -/
theorem fontSize_edit_clamped_witness :
    8 ≤ (OverlayItem.mk "a" "t" 0 0 72 "c").fontSize
    ∧ (OverlayItem.mk "a" "t" 0 0 72 "c").fontSize ≤ 72 :=
  fontSize_edit_clamped (emptyOverlays.set 0 [⟨"a", "t", 0, 0, 12, "c"⟩])
    0 "a" 1000 ⟨"a", "t", 0, 0, 72, "c"⟩ (by decide) (by decide)

/-- C5 counterexample. On a three-page document where only page 2 (index 1)
fails to render, the pipeline renders page 1 (index 0) only — page 3
(index 2) never reaches rendered content — and the global render-failure
alert is raised: the single `try`/`catch` around the render loop aborts the
remaining pages. -/
theorem partial_render_not_resilient :
    (loadAndRender cexRenderEnv).renderedPages = [0]
    ∧ 2 ∉ (loadAndRender cexRenderEnv).renderedPages
    ∧ (loadAndRender cexRenderEnv).alert = some "Failed to render PDF" := by
  decide

/-- If every page of `l₁` either lacks a canvas or renders fine, and page
`k` has a canvas and rejects, the render loop over `l₁ ++ k :: l₂` renders
exactly the canvas-bearing pages of `l₁` and aborts. -/
theorem renderPages_prefix_fail (c : ℕ → Bool)
    (r : ℕ → Except Unit Unit) (k : ℕ) (hk : c k = true)
    (hfail : r k = .error ()) :
    ∀ l₁ l₂ : List ℕ, (∀ j ∈ l₁, c j = true → r j = .ok ()) →
      renderPages c r (l₁ ++ k :: l₂) = (l₁.filter c, true) := by
  intro l₁
  induction l₁ with
  | nil =>
    intro l₂ _
    simp [renderPages, hk, hfail]
  | cons j l₁ ih =>
    intro l₂ hok
    have ihr := ih l₂ (fun a ha hca => hok a (List.mem_cons_of_mem j ha) hca)
    by_cases hc : c j = true
    · have hj : r j = .ok () := hok j (List.mem_cons_self j l₁) hc
      simp [renderPages, hc, hj, ihr, List.filter_cons]
    · have hc2 : c j = false := by
        cases hx : c j
        · rfl
        · exact absurd hx hc
      simp [renderPages, hc2, ihr, List.filter_cons]

/-- C5 amended. If opening succeeds and some page `k` has an available
canvas and a rejecting render, while every earlier page with an available
canvas renders fine, then the pipeline publishes the document sizes,
renders exactly the canvas-bearing pages before `k`, renders no page after
`k`, and surfaces the single render-failure alert. -/
theorem loadAndRender_aborts_on_page_failure (env : RenderEnv)
    (sizes : List PageSize) (k m : ℕ)
    (hload : env.loadResult = .ok sizes)
    (hlen : sizes.length = k + 1 + m)
    (hcanvas : env.canvasFor k = true)
    (hfail : env.renderPageResult k = .error ())
    (hbefore : ∀ j, j < k → env.canvasFor j = true →
      env.renderPageResult j = .ok ()) :
    (loadAndRender env).doc = some sizes
    ∧ (loadAndRender env).renderedPages = (List.range k).filter env.canvasFor
    ∧ (loadAndRender env).alert = some "Failed to render PDF" := by
  have hrange : List.range sizes.length
      = List.range k ++ k :: ((List.range m).map fun x => k + 1 + x) := by
    rw [hlen, show k + 1 + m = k + (1 + m) by omega, List.range_add,
      show 1 + m = m + 1 by omega, List.range_succ_eq_map]
    simp only [List.map_cons, Nat.add_zero, List.map_map]
    congr 1
    congr 1
    apply List.map_congr_left
    intro x _
    simp only [Function.comp_apply]
    omega
  have hloop := renderPages_prefix_fail env.canvasFor env.renderPageResult k
    hcanvas hfail (List.range k) ((List.range m).map fun x => k + 1 + x)
    (fun j hj hcj => hbefore j (List.mem_range.mp hj) hcj)
  simp [loadAndRender, hload, hrange, hloop]

/-- Witness for `loadAndRender_aborts_on_page_failure` on the concrete
three-page run with page 2 failing. -/
theorem loadAndRender_aborts_on_page_failure_witness :
    (loadAndRender cexRenderEnv).doc
        = some [⟨595, 842⟩, ⟨595, 842⟩, ⟨595, 842⟩]
    ∧ (loadAndRender cexRenderEnv).renderedPages
        = (List.range 1).filter cexRenderEnv.canvasFor
    ∧ (loadAndRender cexRenderEnv).alert = some "Failed to render PDF" :=
  loadAndRender_aborts_on_page_failure cexRenderEnv
    [⟨595, 842⟩, ⟨595, 842⟩, ⟨595, 842⟩] 1 1 rfl rfl rfl rfl
    (by
      intro j hj _
      have hj0 : j = 0 := by omega
      subst hj0
      rfl)

/-- C7. For any document key, when the persisted-overlay read throws, the
record is absent, or parsing throws, the restore step installs the empty
collection and surfaces no user-visible error. -/
theorem restore_failure_yields_empty (url : String) (current : PageOverlays)
    (readResult : Except Unit (Option String))
    (parse : String → Except Unit PageOverlays)
    (hfail : readResult = .error () ∨ readResult = .ok none
      ∨ ∃ raw, readResult = .ok (some raw) ∧ parse raw = .error ()) :
    restoreOverlays (some url) current readResult parse
      = (emptyOverlays, none) := by
  rcases hfail with h | h | ⟨raw, h, hp⟩
  · subst h
    simp [restoreOverlays]
  · subst h
    simp [restoreOverlays]
  · subst h
    simp [restoreOverlays, hp]

/-- Witness for `restore_failure_yields_empty` on a concrete absent
record. -/
theorem restore_failure_yields_empty_witness :
    restoreOverlays (some "/u/doc.pdf") emptyOverlays (.ok none)
        (fun _ => .ok emptyOverlays)
      = (emptyOverlays, none) :=
  restore_failure_yields_empty "/u/doc.pdf" emptyOverlays (.ok none)
    (fun _ => .ok emptyOverlays) (Or.inr (Or.inl rfl))

/-- C8. With an export buffer present: if any step of the run fails —
writer load, font embedding, any draw, or serialization — the export ends
with no download and the single alert `'Failed to export PDF'`; and a
download is triggered only when every step succeeded, is named
`annotated.pdf`, and comes with no alert. -/
theorem export_failure_aborts (st : EditorState) (env : ExportEnv)
    (hbuf : st.exportArrayBuffer ≠ none) :
    (exportStepFails st env = true →
      handleExport st env
        = { download := none, alert := some "Failed to export PDF" })
    ∧ (∀ name bytes,
        (handleExport st env).download = some (name, bytes) →
        exportStepFails st env = false ∧ name = "annotated.pdf"
          ∧ (handleExport st env).alert = none) := by
  obtain ⟨ab, hab⟩ : ∃ ab, st.exportArrayBuffer = some ab := by
    cases h : st.exportArrayBuffer with
    | none => exact absurd h hbuf
    | some ab => exact ⟨ab, rfl⟩
  unfold handleExport exportStepFails
  rw [hab]
  cases hl : env.loadResult with
  | error e => simp
  | ok pageSizes =>
    cases he : env.embedFontResult with
    | error e => simp
    | ok u =>
      cases hd : runDraws env.drawTextResult
          (drawOps env.ctx2d st.overlays pageSizes) with
      | error e => simp [hd]
      | ok u2 =>
        cases hs : env.saveResult
            (drawOps env.ctx2d st.overlays pageSizes) with
        | error e => simp [hd, hs]
        | ok bytes =>
          simp only [hd, hs]
          refine ⟨fun hcontra => absurd hcontra (by simp), ?_⟩
          intro name bytes0 hdl
          simp only [Option.some.injEq, Prod.mk.injEq] at hdl
          exact ⟨by trivial, hdl.1.symm, by trivial⟩

/-- Witness for `export_failure_aborts`: a run whose writer-load step fails
aborts with the single alert and no download. -/
theorem export_failure_aborts_witness :
    handleExport exportReadyState exportLoadFailEnv
      = { download := none, alert := some "Failed to export PDF" } :=
  (export_failure_aborts exportReadyState exportLoadFailEnv (by decide)).1
    (by decide)

/-- One clamped-and-scaled color component lies in `[0, 1]`. -/
theorem clamp255Scale_mem_unit (n : ℕ) :
    0 ≤ clamp255Scale n ∧ clamp255Scale n ≤ 1 := by
  unfold clamp255Scale
  constructor
  · positivity
  · rw [div_le_one (by norm_num)]
    exact min_le_left _ _

/-- C9. For every 2D-context availability and serialization behaviour and
every color string, `cssColorToRgb01` returns components in `[0, 1]`; when
no context is available, or the serialized color does not match the
`rgb()`/`rgba()` pattern, it returns black. It is a total function — color
resolution never throws and so never fails the export. -/
theorem cssColorToRgb01_mem_unit (ctx2d : Option (String → String))
    (color : String) :
    (0 ≤ (cssColorToRgb01 ctx2d color).1
      ∧ (cssColorToRgb01 ctx2d color).1 ≤ 1
      ∧ 0 ≤ (cssColorToRgb01 ctx2d color).2.1
      ∧ (cssColorToRgb01 ctx2d color).2.1 ≤ 1
      ∧ 0 ≤ (cssColorToRgb01 ctx2d color).2.2
      ∧ (cssColorToRgb01 ctx2d color).2.2 ≤ 1)
    ∧ (ctx2d = none → cssColorToRgb01 ctx2d color = (0, 0, 0))
    ∧ (∀ serialize, ctx2d = some serialize →
        rgbSearch (serialize color).data = none →
        cssColorToRgb01 ctx2d color = (0, 0, 0)) := by
  cases ctx2d with
  | none =>
    refine ⟨?_, fun _ => rfl, fun serialize h => absurd h (by simp)⟩
    simp [cssColorToRgb01]
  | some f =>
    cases hm : rgbSearch (f color).data with
    | none =>
      refine ⟨?_, fun h => by simp at h, ?_⟩
      · simp [cssColorToRgb01, hm]
      · intro serialize hs _
        obtain rfl : f = serialize := by injection hs
        simp [cssColorToRgb01, hm]
    | some t =>
      obtain ⟨r, g, b⟩ := t
      refine ⟨?_, fun h => by simp at h, ?_⟩
      · simp only [cssColorToRgb01, hm]
        exact ⟨(clamp255Scale_mem_unit r).1, (clamp255Scale_mem_unit r).2,
          (clamp255Scale_mem_unit g).1, (clamp255Scale_mem_unit g).2,
          (clamp255Scale_mem_unit b).1, (clamp255Scale_mem_unit b).2⟩
      · intro serialize hs hnone
        obtain rfl : f = serialize := by injection hs
        rw [hm] at hnone
        exact absurd hnone (by simp)

/-- Witness for `cssColorToRgb01_mem_unit`: the hex serialization
`#111827` does not match the `rgb()` pattern and degrades to black. -/
theorem cssColorToRgb01_mem_unit_witness :
    cssColorToRgb01 (some fun s => s) "#111827" = (0, 0, 0) :=
  (cssColorToRgb01_mem_unit (some fun s => s) "#111827").2.2
    (fun s => s) rfl (by decide)

/-- C10. Loading a document through the `?file=` query-parameter path from
the initial state populates only the rendering buffer: the export buffer
stays null, and invoking export from that state returns immediately with
no download and no alert, whatever the collaborators would do. -/
theorem load_from_url_export_noop (url : String) (bytes : List ℕ) :
    ((loadFromUrlEffect initialState (some url) (.ok bytes)).pdfArrayBuffer
        = some bytes
      ∧ (loadFromUrlEffect initialState (some url) (.ok bytes)).exportArrayBuffer
        = none)
    ∧ ∀ env : ExportEnv,
        handleExport (loadFromUrlEffect initialState (some url) (.ok bytes)) env
          = { download := none, alert := none } := by
  have hst : loadFromUrlEffect initialState (some url) (.ok bytes)
      = { pdfUrl := some url, pdfArrayBuffer := some bytes,
          exportArrayBuffer := none, overlays := emptyOverlays } := by
    simp [loadFromUrlEffect, initialState]
  refine ⟨⟨by rw [hst], by rw [hst]⟩, ?_⟩
  intro env
  rw [hst]
  rfl

end PdfEditor
